import Mathlib

/-!
Shallow embedding of the quota, meal-plan, shopping-list and recipe-generation
logic of the KitchenAlchemist server (`server/routes.ts`, `server/storage.ts`,
the storage methods `generateBudgetFriendlyMealPlan`, `findBudgetFriendlyRecipe`,
`generateShoppingListFromRecipes`, `categorizeIngredient` and the OpenAI adapter
`generateRecipes`), together with theorems settling the specification claims.
-/

/-! ## Quota tracker (routes.ts POST /api/generate-recipes, storage.ts incrementRecipeCount) -/

/-- Models a JS `Date` by the fields the quota code reads (`getFullYear`,
`getMonth`), plus a `day` field so that two timestamps in the same month are
still distinguishable when the code stores a whole timestamp. -/
structure CalDate where
  year : Int
  month : Int
  day : Int
deriving DecidableEq

/-- The user fields read and written by the quota code: `subscriptionStatus`,
`monthlyRecipeCount` (nullable in the schema, read through `|| 0`),
`lastResetDate` (nullable, read through `? :` with default "now"). -/
structure QuotaUser where
  subscriptionStatus : String
  monthlyRecipeCount : Option Nat
  lastResetDate : Option CalDate
deriving DecidableEq

/-- The whole-month difference
`(now.getFullYear() - lastReset.getFullYear()) * 12 + (now.getMonth() - lastReset.getMonth())` used by both the gate and `incrementRecipeCount`. -/
def monthsDiff (now lastReset : CalDate) : Int :=
  (now.year - lastReset.year) * 12 + (now.month - lastReset.month)

/-- The effective count the gate compares against the limit: the stored counter,
treated as 0 when at least one whole calendar month has passed since the last
reset (`if (monthsDiff >= 1) currentCount = 0`). -/
def effectiveCount (u : QuotaUser) (now : CalDate) : Nat :=
  let lastReset := u.lastResetDate.getD now
  if 1 ≤ monthsDiff now lastReset then 0 else u.monthlyRecipeCount.getD 0

/-- Outcome of the quota gate in the generate-recipes handler: either the
request proceeds to generation, or it is refused with an HTTP status and the
`limitReached` flag of the JSON body. -/
inductive GateOutcome where
  | refused (status : Nat) (limitReached : Bool)
  | allowed
deriving DecidableEq

/-- The gate of `POST /api/generate-recipes`: only `"free"` users are checked;
a free user is refused with status 403 and `limitReached: true` when the
effective count is at least 2. -/
def quotaGate (u : QuotaUser) (now : CalDate) : GateOutcome :=
  if u.subscriptionStatus = "free" then
    if 2 ≤ effectiveCount u now then .refused 403 true else .allowed
  else .allowed

/-- Embeds `DatabaseStorage.incrementRecipeCount`: when at least one whole month has
passed since the last reset, store counter 1 and reset timestamp "now";
otherwise add 1 to the stored counter and write the reset timestamp back
unchanged. -/
def incrementRecipeCount (u : QuotaUser) (now : CalDate) : QuotaUser :=
  let lastReset := u.lastResetDate.getD now
  if 1 ≤ monthsDiff now lastReset then
    { u with monthlyRecipeCount := some 1, lastResetDate := some now }
  else
    { u with monthlyRecipeCount := some (u.monthlyRecipeCount.getD 0 + 1) }

/-! ## Ingredient categorizer (storage.ts categorizeIngredient) -/

/-- Whether `pat` starts the character list `s`. -/
def charsStartWith : List Char → List Char → Bool
  | [], _ => true
  | _ :: _, [] => false
  | p :: ps, c :: cs => p == c && charsStartWith ps cs

/-- Whether `pat` occurs as a contiguous run inside the character list `s`. -/
def charsContain (pat : List Char) : List Char → Bool
  | [] => pat.isEmpty
  | c :: cs => charsStartWith pat (c :: cs) || charsContain pat cs

/-- JS `String.prototype.includes`: substring containment. -/
def jsIncludes (s pat : String) : Bool :=
  charsContain pat.data s.data

/-- JS `String.prototype.toLowerCase` restricted to the ASCII range the code
relies on (structural counterpart of `String.toLower`). -/
def toLowerStr (s : String) : String :=
  ⟨s.data.map Char.toLower⟩

/-- Embeds `DatabaseStorage.categorizeIngredient`: case-insensitive keyword-substring
classifier over the ingredient name, first matching group winning. -/
def categorizeIngredient (name : String) : String :=
  let lowerName := toLowerStr name
  if jsIncludes lowerName "milk" || jsIncludes lowerName "cheese" ||
     jsIncludes lowerName "yogurt" || jsIncludes lowerName "butter" then "dairy"
  else if jsIncludes lowerName "chicken" || jsIncludes lowerName "beef" ||
     jsIncludes lowerName "pork" || jsIncludes lowerName "fish" ||
     jsIncludes lowerName "turkey" then "meat"
  else if jsIncludes lowerName "lettuce" || jsIncludes lowerName "tomato" ||
     jsIncludes lowerName "onion" || jsIncludes lowerName "carrot" ||
     jsIncludes lowerName "pepper" then "produce"
  else if jsIncludes lowerName "bread" || jsIncludes lowerName "pasta" ||
     jsIncludes lowerName "rice" || jsIncludes lowerName "flour" then "pantry"
  else "other"

/-! ## Budget meal-plan generator (storage `generateBudgetFriendlyMealPlan`) -/

/-- Models a JS `Date` for the week-start computation: days since the Unix
epoch plus milliseconds into the day. `getDay`, `setDate` day arithmetic and
`setHours(0,0,0,0)` are the only operations the code uses. -/
structure JsTime where
  epochDay : Int
  msOfDay : Nat
deriving DecidableEq

/-- Total milliseconds, for comparing instants. -/
def JsTime.toMs (t : JsTime) : Int :=
  t.epochDay * 86400000 + t.msOfDay

/-- JS `Date.prototype.getDay`: 0 = Sunday … 6 = Saturday. Epoch day 0
(1970-01-01) was a Thursday, i.e. `getDay = 4`. -/
def JsTime.getDay (t : JsTime) : Int :=
  (t.epochDay + 4) % 7

/-- Models `setDate(getDate() + n)`: shift by whole days, keeping the time of day. -/
def JsTime.addDays (t : JsTime) (n : Int) : JsTime :=
  ⟨t.epochDay + n, t.msOfDay⟩

/-- The week-start computation of `generateBudgetFriendlyMealPlan`: subtract
6 days when today is Sunday, otherwise `weekday - 1` days, then
`setHours(0,0,0,0)`. -/
def weekStartOf (now : JsTime) : JsTime :=
  let currentDay := now.getDay
  let daysToMonday := if currentDay = 0 then 6 else currentDay - 1
  ⟨now.epochDay - daysToMonday, 0⟩

/-- The recipe fields the meal-plan generator reads: the row id (written into
`plannedMeal.recipeId`) and `createdAt` (the `getUserRecipes` sort key). The
remaining columns are never consulted by this code path. -/
structure Recipe where
  id : Int
  createdAt : Int
deriving DecidableEq

/-- A pantry row; `generateBudgetFriendlyMealPlan` loads these and passes them
to `findBudgetFriendlyRecipe`, which never reads them. -/
structure PantryItem where
  name : String
deriving DecidableEq

/-- Holds when `a` was created no earlier than `b`: the descending `createdAt` order of
`DatabaseStorage.getUserRecipes` (`orderBy(desc(recipes.createdAt))`). -/
def newerEq (a b : Recipe) : Prop :=
  b.createdAt ≤ a.createdAt

instance : DecidableRel newerEq := fun a b => inferInstanceAs (Decidable (_ ≤ _))

instance : IsTotal Recipe newerEq :=
  ⟨fun a b => (le_total b.createdAt a.createdAt).imp id id⟩

instance : IsTrans Recipe newerEq :=
  ⟨fun _ _ _ h1 h2 => le_trans h2 h1⟩

/-- Embeds `DatabaseStorage.getUserRecipes`: the user's recipes ordered by
`createdAt` descending (newest first). The argument is the user's library in
insertion order. -/
def getUserRecipes (lib : List Recipe) : List Recipe :=
  lib.insertionSort newerEq

/-- Storage `findBudgetFriendlyRecipe`: filters the recipe list (the filter
returns `true` in both branches of the dietary check) and returns the first
element, or `null` when there is none. -/
def findBudgetFriendlyRecipe (recipes : List Recipe) (targetCost : ℚ)
    (dietaryRestrictions : List String) (pantryItems : List PantryItem) :
    Option Recipe :=
  let availableRecipes := recipes.filter fun _recipe =>
    if 0 < dietaryRestrictions.length then true else true
  match availableRecipes with
  | [] => none
  | r :: _ => some r

/-- One entry of the `mealsPerDay` array: a meal type with its share of the
weekly budget. -/
structure MealConfig where
  type : String
  targetCost : ℚ
deriving DecidableEq

/-- The fixed budget split of `generateBudgetFriendlyMealPlan`: breakfast 15%,
lunch 35%, dinner 40% of the weekly budget. -/
def mealsPerDay (weeklyBudget : ℚ) : List MealConfig :=
  [⟨"breakfast", weeklyBudget * 0.15⟩,
   ⟨"lunch", weeklyBudget * 0.35⟩,
   ⟨"dinner", weeklyBudget * 0.40⟩]

/-- JS `Number.prototype.toFixed(2)` for the non-negative values this code
produces: round to the nearest hundredth (ties up) and print with exactly two
decimal digits. -/
def toFixed2 (q : ℚ) : String :=
  let cents := (Rat.floor (q * 100 + 1 / 2)).toNat
  let whole := cents / 100
  let frac := cents % 100
  toString whole ++ "." ++ (if frac < 10 then "0" else "") ++ toString frac

/-- The planned-meal fields written by the generator. -/
structure PlannedMealRec where
  recipeId : Int
  mealType : String
  scheduledDate : JsTime
  servings : Nat
  estimatedCost : String
deriving DecidableEq

/-- The inner loop body over `mealsPerDay` for one day: each slot whose
`findBudgetFriendlyRecipe` call returns a recipe contributes a planned meal
with `estimatedCost = (targetCost / 7).toFixed(2)` and adds `targetCost / 7`
to the running total. -/
def mealsForConfigs (userRecipes : List Recipe) (pantry : List PantryItem)
    (dietary : List String) (weekStart : JsTime) (day : Nat) :
    List MealConfig → List PlannedMealRec × ℚ
  | [] => ([], 0)
  | mc :: rest =>
    let tail := mealsForConfigs userRecipes pantry dietary weekStart day rest
    match findBudgetFriendlyRecipe userRecipes (mc.targetCost / 7) dietary pantry with
    | some r =>
      (⟨r.id, mc.type, weekStart.addDays day, 1, toFixed2 (mc.targetCost / 7)⟩ :: tail.1,
       mc.targetCost / 7 + tail.2)
    | none => tail

/-- The outer loop over days `0 ≤ day < n` (the code runs `n = 7`). -/
def mealsForDays (userRecipes : List Recipe) (pantry : List PantryItem)
    (dietary : List String) (weekStart : JsTime) (weeklyBudget : ℚ) :
    Nat → List PlannedMealRec × ℚ
  | 0 => ([], 0)
  | n + 1 =>
    let prev := mealsForDays userRecipes pantry dietary weekStart weeklyBudget n
    let dayMeals := mealsForConfigs userRecipes pantry dietary weekStart n
      (mealsPerDay weeklyBudget)
    (prev.1 ++ dayMeals.1, prev.2 + dayMeals.2)

/-- The meal-plan fields the generator writes that the claims mention. -/
structure MealPlanRec where
  weekStartDate : JsTime
  totalBudget : ℚ
  actualCost : String
deriving DecidableEq

/-- The value returned by `generateBudgetFriendlyMealPlan` (the plan row after
its final `updateMealPlan` with the formatted `actualCost`, the created
planned meals, the running `totalCost` and `savings = weeklyBudget -
totalCost`). -/
structure GenResult where
  mealPlan : MealPlanRec
  plannedMeals : List PlannedMealRec
  totalCost : ℚ
  savings : ℚ
deriving DecidableEq

/-- Storage `generateBudgetFriendlyMealPlan` as a function of the user's
recipe library (insertion order), pantry, the wall clock, the weekly budget
and the dietary restrictions. -/
def generateBudgetFriendlyMealPlan (lib : List Recipe) (pantry : List PantryItem)
    (now : JsTime) (weeklyBudget : ℚ) (dietary : List String) : GenResult :=
  let userRecipes := getUserRecipes lib
  let weekStart := weekStartOf now
  let built := mealsForDays userRecipes pantry dietary weekStart weeklyBudget 7
  let totalCost := built.2
  { mealPlan := ⟨weekStart, weeklyBudget, toFixed2 totalCost⟩,
    plannedMeals := built.1,
    totalCost := totalCost,
    savings := weeklyBudget - totalCost }

/-- The share of the weekly budget a planned meal's type receives per day,
mirroring the `mealsPerDay` table (used to state what "its slot's per-meal
target" is for a created meal). -/
def perMealTarget (B : ℚ) (mealType : String) : ℚ :=
  if mealType = "breakfast" then B * 0.15 / 7
  else if mealType = "lunch" then B * 0.35 / 7
  else if mealType = "dinner" then B * 0.40 / 7
  else 0

/-- The selection the claim describes: the first recipe of the library in
insertion order (oldest first). -/
def firstInsertionOrder (lib : List Recipe) : Option Recipe :=
  lib.head?

/-! ## Shopping-list aggregator (storage.ts generateShoppingListFromRecipes) -/

/-- One parsed entry of a recipe's stored ingredient list. -/
structure ShopIngredient where
  name : String
  amount : String
  unit : String
deriving DecidableEq

/-- A selected recipe: its row id and parsed ingredient list. -/
structure ShopRecipe where
  id : Int
  ingredients : List ShopIngredient
deriving DecidableEq

/-- The value stored against a lower-cased ingredient name in the
`ingredientMap`. -/
structure ItemDetails where
  amount : String
  unit : String
  category : String
  recipeId : Int
deriving DecidableEq

/-- The repeat-sighting branch: concatenate the new amount onto the existing
entry's amount with a " + " separator, in place (JS `Map.set` keeps the
key's position and the other fields). -/
def bumpAmount (key newAmount : String) :
    List (String × ItemDetails) → List (String × ItemDetails)
  | [] => []
  | (k, d) :: rest =>
    if k == key then (k, { d with amount := d.amount ++ " + " ++ newAmount }) :: rest
    else (k, d) :: bumpAmount key newAmount rest

/-- Processing one ingredient of one recipe against the map: key by the
lower-cased name; on first sight record amount, unit, derived category and
the originating recipe id; on a repeat sighting only extend the amount
string. -/
def addIngredient (recipeId : Int) (m : List (String × ItemDetails))
    (ing : ShopIngredient) : List (String × ItemDetails) :=
  let key := toLowerStr ing.name
  match m.lookup key with
  | some _ => bumpAmount key ing.amount m
  | none => m ++ [(key, ⟨ing.amount, ing.unit, categorizeIngredient ing.name, recipeId⟩)]

/-- The `ingredientMap` built by the double loop over the selected recipes
and their ingredients (a JS `Map` iterated in insertion order). -/
def ingredientMapOf (selectedRecipes : List ShopRecipe) :
    List (String × ItemDetails) :=
  selectedRecipes.foldl (fun m r => r.ingredients.foldl (addIngredient r.id) m) []

/-- One row inserted into `shoppingListItems`. -/
structure ShopItem where
  name : String
  amount : String
  unit : String
  category : String
  recipeId : Int
  isChecked : Bool
deriving DecidableEq

/-- The items `generateShoppingListFromRecipes` inserts: one per map entry,
named by the lower-cased key, unchecked. -/
def generateShoppingListItems (selectedRecipes : List ShopRecipe) :
    List ShopItem :=
  (ingredientMapOf selectedRecipes).map fun e =>
    ⟨e.1, e.2.amount, e.2.unit, e.2.category, e.2.recipeId, false⟩

/-! ## Recipe synthesis adapter (openai.ts generateRecipes, demo fallback) -/

/-- One structured ingredient of a generated recipe. -/
structure RecipeIngredient where
  name : String
  amount : String
  unit : String
deriving DecidableEq

/-- One structured instruction step of a generated recipe. -/
structure RecipeStep where
  stepNumber : Nat
  instruction : String
  duration : Option Nat
deriving DecidableEq

/-- The recipe object produced by the synthesis adapter. -/
structure GeneratedRecipe where
  title : String
  description : String
  ingredients : List RecipeIngredient
  instructions : List RecipeStep
  cookingTime : Nat
  servings : Nat
  difficulty : String
  rating : Nat
deriving DecidableEq

/-- JS `ingredients[i] || dflt`: indexing out of range yields `undefined` and
the empty string is falsy, so both fall back to the default. -/
def ingOr (ingredients : List String) (i : Nat) (dflt : String) : String :=
  match ingredients.get? i with
  | some s => if s = "" then dflt else s
  | none => dflt

/-- The three deterministic demo recipes returned when no OpenAI key is
configured, transcribed from the fallback branch of `generateRecipes`. -/
def demoRecipes (ingredients dietaryRestrictions : List String) :
    List GeneratedRecipe :=
  let dietaryNote :=
    if 0 < dietaryRestrictions.length then
      " (" ++ String.intercalate ", " dietaryRestrictions ++ ")"
    else ""
  [{ title := ingOr ingredients 0 "Herb" ++ " Delight Bowl" ++ dietaryNote,
     description := "A fresh and flavorful " ++
       (if dietaryRestrictions.contains "vegan" then "vegan " else "") ++
       "bowl featuring " ++ String.intercalate ", " (ingredients.take 3) ++
       " with aromatic herbs and seasonings.",
     ingredients :=
       [⟨ingOr ingredients 0 "Main ingredient", "2", "cups"⟩,
        ⟨ingOr ingredients 1 "Secondary ingredient", "1", "cup"⟩,
        ⟨ingOr ingredients 2 "Fresh herbs", "1/4", "cup"⟩,
        ⟨"Olive oil", "2", "tbsp"⟩,
        ⟨"Salt", "1", "tsp"⟩,
        ⟨"Black pepper", "1/2", "tsp"⟩],
     instructions :=
       [⟨1, "Prepare all ingredients by washing and chopping as needed.", some 5⟩,
        ⟨2, "Heat olive oil in a large pan over medium heat.", some 2⟩,
        ⟨3, "Add " ++ ingOr ingredients 0 "main ingredient" ++
          " and cook until tender.", some 8⟩,
        ⟨4, "Season with salt, pepper, and herbs.", some 2⟩,
        ⟨5, "Serve hot in bowls and enjoy!", some 1⟩],
     cookingTime := 20, servings := 4, difficulty := "easy", rating := 5 },
   { title := "Savory " ++ ingOr ingredients 0 "Garden" ++ " Stir-Fry",
     description := "Quick and healthy stir-fry combining " ++
       String.intercalate " and " (ingredients.take 2) ++
       " with vibrant vegetables.",
     ingredients :=
       [⟨ingOr ingredients 0 "Protein", "1", "lb"⟩,
        ⟨ingOr ingredients 1 "Vegetables", "2", "cups"⟩,
        ⟨"Garlic", "3", "cloves"⟩,
        ⟨"Soy sauce", "3", "tbsp"⟩,
        ⟨"Sesame oil", "1", "tbsp"⟩,
        ⟨"Ginger", "1", "tsp"⟩],
     instructions :=
       [⟨1, "Prepare ingredients by cutting into bite-sized pieces.", some 10⟩,
        ⟨2, "Heat oil in wok or large skillet over high heat.", some 2⟩,
        ⟨3, "Add garlic and ginger, stir-fry for 30 seconds.", some 1⟩,
        ⟨4, "Add " ++ ingOr ingredients 0 "protein" ++
          " and cook until almost done.", some 5⟩,
        ⟨5, "Add vegetables and stir-fry until crisp-tender.", some 4⟩,
        ⟨6, "Add soy sauce and sesame oil, toss to combine.", some 1⟩],
     cookingTime := 15, servings := 3, difficulty := "medium", rating := 4 },
   { title := "Gourmet " ++ ingOr ingredients 0 "Chef\x27s" ++ " Special",
     description := "An elevated dish showcasing " ++
       String.intercalate ", " (ingredients.take 3) ++
       " with sophisticated flavors and presentation.",
     ingredients :=
       [⟨ingOr ingredients 0 "Premium ingredient", "1.5", "lbs"⟩,
        ⟨ingOr ingredients 1 "Accompaniment", "1", "cup"⟩,
        ⟨ingOr ingredients 2 "Garnish", "1/2", "cup"⟩,
        ⟨"White wine", "1/2", "cup"⟩,
        ⟨"Butter", "3", "tbsp"⟩,
        ⟨"Fresh thyme", "2", "tsp"⟩],
     instructions :=
       [⟨1, "Preheat oven to 400\xb0F and prepare baking dish.", some 5⟩,
        ⟨2, "Season main ingredient generously with salt and pepper.", some 3⟩,
        ⟨3, "Sear in hot pan until golden brown on all sides.", some 8⟩,
        ⟨4, "Add wine and herbs, then transfer to oven.", some 2⟩,
        ⟨5, "Roast until cooked through, about 25-30 minutes.", some 30⟩,
        ⟨6, "Rest for 5 minutes before serving with garnish.", some 5⟩],
     cookingTime := 45, servings := 4, difficulty := "hard", rating := 5 }]

/-- The environment the adapter runs in: the optional provider credential and
an oracle standing for the remote LLM call (only consulted when a key is
configured). -/
structure LlmEnv where
  apiKey : Option String
  llm : List String → List String → List GeneratedRecipe

/-- Embeds `generateRecipes` of the OpenAI adapter: without a configured key
the demo fallback is returned; with a key the external call decides the
result. -/
def generateRecipes (env : LlmEnv)
    (ingredients dietaryRestrictions : List String) : List GeneratedRecipe :=
  match env.apiKey with
  | none => demoRecipes ingredients dietaryRestrictions
  | some _ => env.llm ingredients dietaryRestrictions

/-! ## Theorems settling the claims (helper lemmas included) -/

/-- C5: for any instant (with a valid time-of-day), the computed week start is
a Monday (`getDay = 1`) at midnight, is not after the input instant, and is
strictly after 7 days before it. -/
theorem week_start_normalization (now : JsTime) (h : now.msOfDay < 86400000) :
    (weekStartOf now).getDay = 1 ∧
    (weekStartOf now).msOfDay = 0 ∧
    (weekStartOf now).toMs ≤ now.toMs ∧
    now.toMs - 7 * 86400000 < (weekStartOf now).toMs := by
  obtain ⟨b, a⟩ := now
  simp only [weekStartOf, JsTime.getDay, JsTime.toMs] at h ⊢
  split_ifs with hc <;> refine ⟨?_, trivial, ?_, ?_⟩
  · omega
  · omega
  · omega
  · generalize hk : (b + 4) % 7 = k at hc ⊢
    omega
  · generalize hk : (b + 4) % 7 = k at hc ⊢
    omega
  · generalize hk : (b + 4) % 7 = k at hc ⊢
    omega

theorem week_start_normalization_witness :
    (weekStartOf ⟨20000, 3600000⟩).getDay = 1 ∧
    (weekStartOf ⟨20000, 3600000⟩).msOfDay = 0 ∧
    (weekStartOf ⟨20000, 3600000⟩).toMs ≤ (JsTime.mk 20000 3600000).toMs ∧
    (JsTime.mk 20000 3600000).toMs - 7 * 86400000 < (weekStartOf ⟨20000, 3600000⟩).toMs :=
  week_start_normalization ⟨20000, 3600000⟩ (by decide)

/-- The dietary filter of `findBudgetFriendlyRecipe` keeps every recipe, so
the selection is the head of the (already ordered) recipe list. -/
theorem find_eq_head (rs : List Recipe) (t : ℚ) (d : List String)
    (p : List PantryItem) : findBudgetFriendlyRecipe rs t d p = rs.head? := by
  cases rs <;> simp [findBudgetFriendlyRecipe]

/-- With an empty recipe list every slot is skipped. -/
theorem mealsForConfigs_nil (pantry : List PantryItem) (dietary : List String)
    (ws : JsTime) (day : Nat) (configs : List MealConfig) :
    mealsForConfigs [] pantry dietary ws day configs = ([], 0) := by
  induction configs with
  | nil => rfl
  | cons mc rest ih => simp [mealsForConfigs, find_eq_head, ih]

/-- With a non-empty recipe list every slot is filled with the head recipe,
the stored cost is the formatted per-slot target and the accumulated cost is
the sum of the per-slot targets. -/
theorem mealsForConfigs_cons (r : Recipe) (rs : List Recipe)
    (pantry : List PantryItem) (dietary : List String) (ws : JsTime) (day : Nat)
    (configs : List MealConfig) :
    mealsForConfigs (r :: rs) pantry dietary ws day configs =
      (configs.map fun mc =>
        ⟨r.id, mc.type, ws.addDays day, 1, toFixed2 (mc.targetCost / 7)⟩,
       (configs.map fun mc => mc.targetCost / 7).sum) := by
  induction configs with
  | nil => rfl
  | cons mc rest ih => simp [mealsForConfigs, find_eq_head, ih]

theorem mealsForDays_nil (pantry : List PantryItem) (dietary : List String)
    (ws : JsTime) (B : ℚ) (n : Nat) :
    mealsForDays [] pantry dietary ws B n = ([], 0) := by
  induction n with
  | zero => rfl
  | succ n ih => simp [mealsForDays, mealsForConfigs_nil, ih]

/-- Every planned meal created by the day loop carries the type and the
formatted per-slot target cost of one of the three configured slots. -/
theorem mealsForDays_est (lib : List Recipe) (pantry : List PantryItem)
    (dietary : List String) (ws : JsTime) (B : ℚ) (n : Nat) :
    ∀ m ∈ (mealsForDays lib pantry dietary ws B n).1,
      ∃ mc ∈ mealsPerDay B, m.mealType = mc.type ∧
        m.estimatedCost = toFixed2 (mc.targetCost / 7) := by
  induction n with
  | zero => intro m hm; simp [mealsForDays] at hm
  | succ n ih =>
    intro m hm
    simp only [mealsForDays, List.mem_append] at hm
    rcases hm with hm | hm
    · exact ih m hm
    · rcases lib with _ | ⟨r, rs⟩
      · simp [mealsForConfigs_nil] at hm
      · rw [mealsForConfigs_cons] at hm
        simp only [List.mem_map] at hm
        obtain ⟨mc, hmc, rfl⟩ := hm
        exact ⟨mc, hmc, rfl, rfl⟩

/-- The cost accumulated by the inner loop is the sum, over the meals it
created, of the per-meal target determined by the meal's type. -/
theorem mealsForConfigs_cost (lib : List Recipe) (pantry : List PantryItem)
    (dietary : List String) (ws : JsTime) (day : Nat) (B : ℚ)
    (configs : List MealConfig)
    (h : ∀ mc ∈ configs, perMealTarget B mc.type = mc.targetCost / 7) :
    (mealsForConfigs lib pantry dietary ws day configs).2 =
      ((mealsForConfigs lib pantry dietary ws day configs).1.map
        fun m => perMealTarget B m.mealType).sum := by
  induction configs with
  | nil => simp [mealsForConfigs]
  | cons mc rest ih =>
    have hmc := h mc (List.mem_cons_self mc rest)
    have hrest := ih fun x hx => h x (List.mem_cons_of_mem mc hx)
    cases hfind : findBudgetFriendlyRecipe lib (mc.targetCost / 7) dietary pantry <;>
      simp [mealsForConfigs, hfind, hrest, hmc]

/-- The `mealsPerDay` table and `perMealTarget` agree slot by slot. -/
theorem perMealTarget_mealsPerDay (B : ℚ) :
    ∀ mc ∈ mealsPerDay B, perMealTarget B mc.type = mc.targetCost / 7 := by
  intro mc hmc
  simp only [mealsPerDay, List.mem_cons, List.not_mem_nil, or_false] at hmc
  rcases hmc with rfl | rfl | rfl <;> simp [perMealTarget]

/-- The cost accumulated by the day loop is the sum, over all created meals,
of the per-meal target determined by each meal's type. -/
theorem mealsForDays_cost (lib : List Recipe) (pantry : List PantryItem)
    (dietary : List String) (ws : JsTime) (B : ℚ) (n : Nat) :
    (mealsForDays lib pantry dietary ws B n).2 =
      ((mealsForDays lib pantry dietary ws B n).1.map
        fun m => perMealTarget B m.mealType).sum := by
  induction n with
  | zero => simp [mealsForDays]
  | succ n ih =>
    simp [mealsForDays, ih,
      mealsForConfigs_cost lib pantry dietary ws n B (mealsPerDay B)
        (perMealTarget_mealsPerDay B)]

/-- Meal count of the day loop: 3 filled slots per day when the library is
non-empty. -/
theorem mealsForDays_length_cons (r : Recipe) (rs : List Recipe)
    (pantry : List PantryItem) (dietary : List String) (ws : JsTime) (B : ℚ)
    (n : Nat) :
    (mealsForDays (r :: rs) pantry dietary ws B n).1.length = n * 3 := by
  induction n with
  | zero => rfl
  | succ n ih =>
    simp [mealsForDays, mealsForConfigs_cons, ih, mealsPerDay, Nat.succ_mul]

/-- C3 counterexample: at weekly budget 70 the three fixed shares sum to 63,
not to the full budget 70, so they do not sum to 100% of the input budget. -/
theorem budget_split_cex :
    ((mealsPerDay 70).map MealConfig.targetCost).sum ≠ (70 : ℚ) := by
  simp [mealsPerDay]
  norm_num

/-- C3 (amended): for every positive weekly budget the three fixed meal-type
shares — breakfast 15%, lunch 35%, dinner 40% — sum to exactly 90% of the
input budget. -/
theorem budget_split_ninety (B : ℚ) (hB : 0 < B) :
    ((mealsPerDay B).map MealConfig.targetCost).sum = (9 / 10) * B := by
  simp [mealsPerDay]
  ring_nf

theorem budget_split_ninety_witness :
    ((mealsPerDay 70).map MealConfig.targetCost).sum = (9 / 10) * 70 :=
  budget_split_ninety 70 (by norm_num)

/-- C4: for a non-empty library, no dietary restrictions and a positive
budget, every created meal stores the 2-decimal formatting of its slot's
per-meal target (the meal type's budget share divided by 7), `totalCost` is
the sum of the created meals' per-meal targets, `savings` is the budget minus
`totalCost`, and the plan's `actualCost` is `totalCost` formatted to 2
decimals. -/
theorem budget_plan_arithmetic (lib : List Recipe) (pantry : List PantryItem)
    (now : JsTime) (B : ℚ) (dietary : List String)
    (hlib : lib ≠ []) (hdiet : dietary = []) (hB : 0 < B) :
    (∀ m ∈ (generateBudgetFriendlyMealPlan lib pantry now B dietary).plannedMeals,
      ∃ mc ∈ mealsPerDay B, m.mealType = mc.type ∧
        m.estimatedCost = toFixed2 (mc.targetCost / 7) ∧
        mc.targetCost / 7 = perMealTarget B m.mealType) ∧
    (generateBudgetFriendlyMealPlan lib pantry now B dietary).totalCost =
      ((generateBudgetFriendlyMealPlan lib pantry now B dietary).plannedMeals.map
        fun m => perMealTarget B m.mealType).sum ∧
    (generateBudgetFriendlyMealPlan lib pantry now B dietary).savings =
      B - (generateBudgetFriendlyMealPlan lib pantry now B dietary).totalCost ∧
    (generateBudgetFriendlyMealPlan lib pantry now B dietary).mealPlan.actualCost =
      toFixed2 (generateBudgetFriendlyMealPlan lib pantry now B dietary).totalCost := by
  refine ⟨?_, ?_, rfl, rfl⟩
  · intro m hm
    obtain ⟨mc, hmc, hty, hest⟩ :=
      mealsForDays_est (getUserRecipes lib) pantry dietary (weekStartOf now) B 7 m hm
    exact ⟨mc, hmc, hty, hest, by rw [hty]; exact (perMealTarget_mealsPerDay B mc hmc).symm⟩
  · exact mealsForDays_cost (getUserRecipes lib) pantry dietary (weekStartOf now) B 7

theorem budget_plan_arithmetic_witness :
    (generateBudgetFriendlyMealPlan [⟨1, 5⟩] [] ⟨20000, 0⟩ 70 []).savings =
      70 - (generateBudgetFriendlyMealPlan [⟨1, 5⟩] [] ⟨20000, 0⟩ 70 []).totalCost :=
  (budget_plan_arithmetic [⟨1, 5⟩] [] ⟨20000, 0⟩ 70 []
    (by decide) rfl (by norm_num)).2.2.1

/-- C6 counterexample: with a library of two recipes inserted oldest first,
the generator picks the newest recipe (head of the `createdAt`-descending
order), not the first in insertion order. -/
theorem recipe_selection_cex :
    findBudgetFriendlyRecipe (getUserRecipes [⟨1, 10⟩, ⟨2, 20⟩]) 1 [] [] ≠
      firstInsertionOrder [⟨1, 10⟩, ⟨2, 20⟩] := by
  decide

/-- C6 (amended): each slot is assigned the head of `getUserRecipes`, the
library sorted newest first (`createdAt` descending); the choice is the same
for every slot (independent of the slot's target cost, the restrictions and
the pantry), and an empty library means every meal is skipped. -/
theorem recipe_selection_policy (lib : List Recipe) (t t' : ℚ)
    (d d' : List String) (p p' : List PantryItem) :
    findBudgetFriendlyRecipe (getUserRecipes lib) t d p = (getUserRecipes lib).head? ∧
    findBudgetFriendlyRecipe (getUserRecipes lib) t d p =
      findBudgetFriendlyRecipe (getUserRecipes lib) t' d' p' ∧
    (getUserRecipes lib).Perm lib ∧
    (getUserRecipes lib).Sorted newerEq ∧
    (lib = [] → findBudgetFriendlyRecipe (getUserRecipes lib) t d p = none) := by
  refine ⟨find_eq_head _ t d p, ?_, List.perm_insertionSort newerEq lib,
    List.sorted_insertionSort newerEq lib, ?_⟩
  · rw [find_eq_head, find_eq_head]
  · intro h
    subst h
    rfl

theorem recipe_selection_policy_witness :
    findBudgetFriendlyRecipe (getUserRecipes [⟨1, 10⟩, ⟨2, 20⟩]) 3 ["vegan"] [] =
      (getUserRecipes [⟨1, 10⟩, ⟨2, 20⟩]).head? ∧
    findBudgetFriendlyRecipe (getUserRecipes []) 3 [] [] = none :=
  ⟨(recipe_selection_policy [⟨1, 10⟩, ⟨2, 20⟩] 3 4 ["vegan"] [] [] []).1,
   (recipe_selection_policy [] 3 4 [] [] [] []).2.2.2.2 rfl⟩

/-- C9: the plan holds exactly 21 planned meals when the library is non-empty
and exactly 0 when it is empty; a strictly partial fill is impossible. -/
theorem all_or_nothing_fill (lib : List Recipe) (pantry : List PantryItem)
    (now : JsTime) (B : ℚ) (dietary : List String) :
    ((generateBudgetFriendlyMealPlan lib pantry now B dietary).plannedMeals.length
      = if lib = [] then 0 else 21) ∧
    ¬(0 < (generateBudgetFriendlyMealPlan lib pantry now B dietary).plannedMeals.length ∧
      (generateBudgetFriendlyMealPlan lib pantry now B dietary).plannedMeals.length < 21) := by
  have hlen : (generateBudgetFriendlyMealPlan lib pantry now B dietary).plannedMeals.length
      = if lib = [] then 0 else 21 := by
    rcases hl : lib with _ | ⟨r, rs⟩
    · simp [generateBudgetFriendlyMealPlan, getUserRecipes, mealsForDays_nil]
    · have hne : getUserRecipes (r :: rs) ≠ [] := by
        intro hcon
        have := (List.perm_insertionSort newerEq (r :: rs)).length_eq
        rw [getUserRecipes] at hcon
        rw [hcon] at this
        simp at this
      rcases hs : getUserRecipes (r :: rs) with _ | ⟨r', rs'⟩
      · exact absurd hs hne
      · simp only [generateBudgetFriendlyMealPlan, hs, List.cons_ne_nil, if_false]
        rw [mealsForDays_length_cons]
  refine ⟨hlen, ?_⟩
  rw [hlen]
  split <;> omega

theorem all_or_nothing_fill_witness :
    ((generateBudgetFriendlyMealPlan [⟨1, 5⟩] [] ⟨20000, 0⟩ 70 []).plannedMeals.length
      = if ([⟨1, 5⟩] : List Recipe) = [] then 0 else 21) ∧
    ¬(0 < (generateBudgetFriendlyMealPlan [⟨1, 5⟩] [] ⟨20000, 0⟩ 70 []).plannedMeals.length ∧
      (generateBudgetFriendlyMealPlan [⟨1, 5⟩] [] ⟨20000, 0⟩ 70 []).plannedMeals.length < 21) :=
  all_or_nothing_fill [⟨1, 5⟩] [] ⟨20000, 0⟩ 70 []

/-- C1: for a free-tier user with a stored reset timestamp at least one whole
calendar month old, the gate's effective count is 0 regardless of the stored
counter, and `incrementRecipeCount` stores counter 1 and reset timestamp "now";
when the month difference is 0, it adds exactly 1 to the stored counter and
leaves the reset timestamp unchanged. -/
theorem quota_rollover_monthly (u : QuotaUser) (now d : CalDate)
    (hfree : u.subscriptionStatus = "free") (hd : u.lastResetDate = some d) :
    (1 ≤ monthsDiff now d →
      effectiveCount u now = 0 ∧
      (incrementRecipeCount u now).monthlyRecipeCount = some 1 ∧
      (incrementRecipeCount u now).lastResetDate = some now) ∧
    (monthsDiff now d = 0 →
      (incrementRecipeCount u now).monthlyRecipeCount
        = some (u.monthlyRecipeCount.getD 0 + 1) ∧
      (incrementRecipeCount u now).lastResetDate = some d) := by
  constructor
  · intro h
    refine ⟨?_, ?_, ?_⟩ <;> simp [effectiveCount, incrementRecipeCount, hd, h]
  · intro h
    have h1 : ¬ 1 ≤ monthsDiff now d := by omega
    refine ⟨?_, ?_⟩ <;> simp [incrementRecipeCount, hd, h1]

theorem quota_rollover_monthly_witness :
    (effectiveCount ⟨"free", some 5, some ⟨2025, 2, 3⟩⟩ ⟨2025, 3, 4⟩ = 0 ∧
      (incrementRecipeCount ⟨"free", some 5, some ⟨2025, 2, 3⟩⟩ ⟨2025, 3, 4⟩).monthlyRecipeCount
        = some 1 ∧
      (incrementRecipeCount ⟨"free", some 5, some ⟨2025, 2, 3⟩⟩ ⟨2025, 3, 4⟩).lastResetDate
        = some ⟨2025, 3, 4⟩) ∧
    ((incrementRecipeCount ⟨"free", some 1, some ⟨2025, 2, 3⟩⟩ ⟨2025, 2, 20⟩).monthlyRecipeCount
        = some ((some 1 : Option Nat).getD 0 + 1) ∧
      (incrementRecipeCount ⟨"free", some 1, some ⟨2025, 2, 3⟩⟩ ⟨2025, 2, 20⟩).lastResetDate
        = some ⟨2025, 2, 3⟩) :=
  ⟨(quota_rollover_monthly ⟨"free", some 5, some ⟨2025, 2, 3⟩⟩ ⟨2025, 3, 4⟩ ⟨2025, 2, 3⟩
      rfl rfl).1 (by decide),
   (quota_rollover_monthly ⟨"free", some 1, some ⟨2025, 2, 3⟩⟩ ⟨2025, 2, 20⟩ ⟨2025, 2, 3⟩
      rfl rfl).2 (by decide)⟩

/-- C2: users whose tier is not "free" are never refused by the quota gate; a
free user with effective count at least 2 is refused with HTTP 403 and
`limitReached: true`; a free user with effective count at most 1 proceeds. -/
theorem quota_gate_boundary (u : QuotaUser) (now : CalDate) :
    (u.subscriptionStatus ≠ "free" → quotaGate u now = .allowed) ∧
    (u.subscriptionStatus = "free" → 2 ≤ effectiveCount u now →
      quotaGate u now = .refused 403 true) ∧
    (u.subscriptionStatus = "free" → effectiveCount u now ≤ 1 →
      quotaGate u now = .allowed) := by
  refine ⟨fun h => ?_, fun hf h2 => ?_, fun hf h1 => ?_⟩
  · simp [quotaGate, h]
  · simp [quotaGate, hf, h2]
  · have h2 : ¬ 2 ≤ effectiveCount u now := by omega
    simp [quotaGate, hf, h2]

theorem quota_gate_boundary_witness :
    quotaGate ⟨"pro", some 99, some ⟨2025, 1, 1⟩⟩ ⟨2025, 1, 2⟩ = .allowed ∧
    quotaGate ⟨"free", some 2, some ⟨2025, 1, 1⟩⟩ ⟨2025, 1, 2⟩ = .refused 403 true ∧
    quotaGate ⟨"free", some 1, some ⟨2025, 1, 1⟩⟩ ⟨2025, 1, 2⟩ = .allowed :=
  ⟨(quota_gate_boundary ⟨"pro", some 99, some ⟨2025, 1, 1⟩⟩ ⟨2025, 1, 2⟩).1 (by decide),
   (quota_gate_boundary ⟨"free", some 2, some ⟨2025, 1, 1⟩⟩ ⟨2025, 1, 2⟩).2.1 rfl (by decide),
   (quota_gate_boundary ⟨"free", some 1, some ⟨2025, 1, 1⟩⟩ ⟨2025, 1, 2⟩).2.2 rfl (by decide)⟩

/-- C8: the categorizer's case-insensitive substring matching in priority order
on the worked examples, including the substring artifact "cheeseburger" →
dairy. -/
theorem categorize_ingredient_examples :
    categorizeIngredient "Whole Milk" = "dairy" ∧
    categorizeIngredient "Ground Beef" = "meat" ∧
    categorizeIngredient "Roma Tomatoes" = "produce" ∧
    categorizeIngredient "Basmati Rice" = "pantry" ∧
    categorizeIngredient "Sea Salt" = "other" ∧
    categorizeIngredient "cheeseburger" = "dairy" := by
  decide

/-- Looking up the bumped key finds the entry with the extended amount and
the other fields untouched. -/
theorem lookup_bumpAmount (key amt : String) (m : List (String × ItemDetails)) :
    List.lookup key (bumpAmount key amt m) =
      (List.lookup key m).map fun d => { d with amount := d.amount ++ " + " ++ amt } := by
  induction m with
  | nil => rfl
  | cons kd rest ih =>
    obtain ⟨k, d⟩ := kd
    by_cases hk : key = k
    · subst hk
      simp [bumpAmount, List.lookup]
    · have hk2 : (k == key) = false := by simpa [beq_iff_eq] using fun h => hk h.symm
      have hk3 : (key == k) = false := by simpa [beq_iff_eq] using hk
      simp [bumpAmount, List.lookup, hk2, hk3, ih]

/-- C7: when an ingredient's lower-cased name is already in the map, the
resulting entry keeps the first sighting's unit, category and recipe id and
extends the amount string with " + " and the new amount; two recipes each
containing "Tomato" with amounts "2 cups" and "1 cup" produce exactly one
item named "tomato" with amount "2 cups + 1 cup". -/
theorem shopping_merge_overlap (m : List (String × ItemDetails))
    (d : ItemDetails) (rid : Int) (ing : ShopIngredient)
    (h : List.lookup (toLowerStr ing.name) m = some d) :
    (List.lookup (toLowerStr ing.name) (addIngredient rid m ing) =
      some ⟨d.amount ++ " + " ++ ing.amount, d.unit, d.category, d.recipeId⟩) ∧
    generateShoppingListItems
        [⟨1, [⟨"Tomato", "2 cups", "cups"⟩]⟩, ⟨2, [⟨"Tomato", "1 cup", "cup"⟩]⟩] =
      [⟨"tomato", "2 cups + 1 cup", "cups", "produce", 1, false⟩] := by
  constructor
  · rw [addIngredient]
    simp only [h]
    rw [lookup_bumpAmount, h]
    rfl
  · decide

theorem shopping_merge_overlap_witness :
    List.lookup (toLowerStr "Tomato")
        (addIngredient 2 [("tomato", ⟨"2 cups", "cups", "produce", 1⟩)]
          ⟨"Tomato", "1 cup", "cup"⟩) =
      some ⟨"2 cups" ++ " + " ++ "1 cup", "cups", "produce", 1⟩ :=
  (shopping_merge_overlap [("tomato", ⟨"2 cups", "cups", "produce", 1⟩)]
    ⟨"2 cups", "cups", "produce", 1⟩ 2 ⟨"Tomato", "1 cup", "cup"⟩ (by decide)).1

/-- C10: with no provider credential configured, the result of
`generateRecipes` is a function of the ingredient and restriction lists
alone — two calls under any two key-less environments agree — and it is the
fixed list of three template recipes. -/
theorem offline_fallback_deterministic (e1 e2 : LlmEnv)
    (ing restr : List String) (h1 : e1.apiKey = none) (h2 : e2.apiKey = none) :
    generateRecipes e1 ing restr = generateRecipes e2 ing restr ∧
    generateRecipes e1 ing restr = demoRecipes ing restr ∧
    (generateRecipes e1 ing restr).length = 3 := by
  simp [generateRecipes, h1, h2, demoRecipes]

theorem offline_fallback_deterministic_witness :
    generateRecipes ⟨none, fun _ _ => []⟩ ["chicken", "rice"] ["vegan"] =
      generateRecipes ⟨none, fun i _ => demoRecipes i []⟩ ["chicken", "rice"] ["vegan"] ∧
    generateRecipes ⟨none, fun _ _ => []⟩ ["chicken", "rice"] ["vegan"] =
      demoRecipes ["chicken", "rice"] ["vegan"] ∧
    (generateRecipes ⟨none, fun _ _ => []⟩ ["chicken", "rice"] ["vegan"]).length = 3 :=
  offline_fallback_deterministic ⟨none, fun _ _ => []⟩
    ⟨none, fun i _ => demoRecipes i []⟩ ["chicken", "rice"] ["vegan"] rfl rfl
